import Mathlib

/-!
# Verification of `process/process_solaris.go`

A shallow embedding of the Solaris back end of the process package, followed by
the theorems that settle the specification claims about it.

Conventions of the embedding

* Go `int32` values are integers (`Int`); the one place where a 32-bit pattern is
  built (`readInt32`) reduces modulo `2^32` explicitly.
* A Go `error` is `Option GoError`, `none` being the nil error.
* A Go pointer `*T` is `Option T`, `none` being the nil pointer.
* A Go slice `[]T` whose contents are never read is `Option (List T)`, `none`
  being the nil slice and `some []` the empty, non-nil slice.
* A Go `[]byte` that is read is a `ByteSlice`: its elements together with the
  bytes of its backing array that lie between its length and its capacity.
* A Go call that may stop with a run-time panic returns an `Outcome`.
-/

namespace process

/-! ## Values -/

/-- One byte of memory. -/
abbrev Byte := Fin 256

/-- Errors that the functions of this file can hand to their caller.
Modelled from the spec: the sentinel `common.ErrNotImplementedError` is declared in
`internal/common`, outside this file ("a single shared error-kind value defined once and
referenced by every backend"); the other constructors stand for whatever error value the
read of a file reports. -/
inductive GoError where
  | ErrNotImplementedError
  | PathError (op path : String) (errno : Nat)
  | other (msg : String)
  deriving DecidableEq, Repr

/-- The Go type `error`: `none` is the nil error. -/
abbrev Err := Option GoError

/-- The values of `context.Context` that a caller can build. -/
inductive Context where
  | Background
  | TODO
  | WithCancel (parent : Context) (cancelled : Bool)
  | WithValue (parent : Context) (key val : String)
  deriving DecidableEq, Repr

/-- Result of running a Go function body: it returns a value, stops with a run-time panic
(an index or slice bound out of range), or performs a load that leaves the backing array
of the slice (`fault`). -/
inductive Outcome (α : Type) where
  | ret (a : α)
  | panic
  | fault
  deriving DecidableEq, Repr

/-- Sequencing of Go statements: the first panic or fault ends the function. -/
def Outcome.bind {α β : Type} (x : Outcome α) (f : α → Outcome β) : Outcome β :=
  match x with
  | .ret a => f a
  | .panic => .panic
  | .fault => .fault

instance : Monad Outcome where
  pure := Outcome.ret
  bind := Outcome.bind

/-- A Go `[]byte`: `elems` are the `len` elements, `spare` the bytes of the backing array
between `len` and `cap`. -/
structure ByteSlice where
  elems : List Byte
  spare : List Byte
  deriving DecidableEq, Repr

/-- Go `len(s)`. -/
def ByteSlice.len (s : ByteSlice) : Nat := s.elems.length

/-- Go `cap(s)`. -/
def ByteSlice.cap (s : ByteSlice) : Nat := s.elems.length + s.spare.length

/-- The memory that starts at the first element of the slice and ends at its capacity. -/
def ByteSlice.mem (s : ByteSlice) : List Byte := s.elems ++ s.spare

/-- The Go slice expression `s[lo:hi]` on a byte slice: it panics unless
`lo ≤ hi ≤ cap(s)`; the result shares the backing array. -/
def sliceExpr (s : ByteSlice) (lo hi : Nat) : Outcome ByteSlice :=
  if lo ≤ hi ∧ hi ≤ s.cap then
    .ret { elems := (s.mem.drop lo).take (hi - lo), spare := s.mem.drop hi }
  else
    .panic

/-- Reinterpretation of a 32-bit pattern as a Go `int32` (two's complement). -/
def toInt32 (u : Nat) : Int :=
  if u % 2 ^ 32 < 2 ^ 31 then ((u % 2 ^ 32 : Nat) : Int) else ((u % 2 ^ 32 : Nat) : Int) - 2 ^ 32

/-- The source's `readInt32`: `*(*int32)(unsafe.Pointer(&b[0]))`.
The index expression `b[0]` panics on an empty slice. The load then takes the four bytes of
memory that start at `&b[0]`, in the byte order of the host; the Go toolchain builds the
`solaris` target for amd64 only, so the first byte is the least significant one. A load
that leaves the backing array is a `fault`. -/
def readInt32 (b : ByteSlice) : Outcome Int :=
  match b.elems with
  | [] => .panic
  | _ :: _ =>
    match b.mem with
    | b0 :: b1 :: b2 :: b3 :: _ =>
      .ret (toInt32 (b0.val + b1.val * 2 ^ 8 + b2.val * 2 ^ 16 + b3.val * 2 ^ 24))
    | _ => .fault

/-! ## The record locator -/

/-- The character of a decimal digit. -/
def digitChar (d : Nat) : Char := Char.ofNat (48 + d)

/-- Decimal digits of a natural number, most significant first, no leading zero. The first
argument bounds the number of digits; `formatNat` passes a bound that is never reached. -/
def decDigits : Nat → Nat → List Char
  | 0, _ => []
  | fuel + 1, n =>
    if n < 10 then [digitChar n] else decDigits fuel (n / 10) ++ [digitChar (n % 10)]

/-- Decimal rendering of a natural number. -/
def formatNat (n : Nat) : List Char := decDigits (n + 1) n

/-- The verb `%d` of Go's `fmt` on an integer: the decimal digits, after a minus sign when
the value is negative. -/
def formatInt (i : Int) : List Char :=
  if i < 0 then '-' :: formatNat i.natAbs else formatNat i.natAbs

/-- The source's `fmt.Sprintf("/proc/%d/psinfo", pid)`. -/
def statPath (pid : Int) : String :=
  String.mk ("/proc/".data ++ formatInt pid ++ "/psinfo".data)

/-! ## The process handle -/

/-- The handle of one process.
Modelled from the spec: the type `Process` is declared in `process.go`, outside this file;
this file reads and writes the fields `Pid` and `parent` only ("holds the process id and
any fields eagerly resolved at construction (parent id)", both 32-bit signed integers). -/
structure Process where
  Pid : Int
  parent : Int
  deriving DecidableEq, Repr

/-- The function `ioutil.ReadFile` as the operating system answers it: for a path, the
bytes read and the error (Go returns both). -/
abbrev FileReader := String → ByteSlice × Err

/-- The source's `(p *Process) readPsinfo(ctx)`. The receiver is a pointer: the handle after
the call is returned next to the error. -/
def Process.readPsinfo (ReadFile : FileReader) (p : Process) (_ctx : Context) :
    Outcome (Process × Err) :=
  let pid := p.Pid
  let statPath := statPath pid
  let (contents, err) := ReadFile statPath
  match err with
  | some e => .ret (p, some e)
  | none => do
    -- XXX assume 64-bit Solaris
    let field ← sliceExpr contents 8 12
    let v ← readInt32 field
    .ret ({ p with parent := v }, none)

/-- The source's `NewProcess(pid)`: the pointer it returns and the error. -/
def NewProcess (ReadFile : FileReader) (pid : Int) : Outcome (Option Process × Err) :=
  let p : Process := { Pid := pid, parent := 0 }
  match Process.readPsinfo ReadFile p Context.Background with
  | .ret (p, err) => .ret (some p, err)
  | .panic => .panic
  | .fault => .fault

/-- The source's `(p *Process) Ppid()`. -/
def Process.Ppid (p : Process) : Int × Err :=
  (p.parent, none)

/-- The source's `(p *Process) PpidWithContext(ctx)`. -/
def Process.PpidWithContext (_p : Process) (_ctx : Context) : Int × Err :=
  (0, some GoError.ErrNotImplementedError)

/-- The documented layout of the head of a `psinfo_t` record (the comment taken from
`/usr/include/procfs.h`): four consecutive 4-byte fields `pr_flag`, `pr_nlwp`, `pr_pid`,
`pr_ppid`. -/
structure PsinfoHead where
  pr_flag : Int
  pr_nlwp : Int
  pr_pid : Int
  pr_ppid : Int
  deriving DecidableEq, Repr

/-- The four bytes of a 32-bit integer in memory, least significant first. -/
def int32Bytes (i : Int) : List Byte :=
  let u := (i % 2 ^ 32).toNat
  [Fin.ofNat u, Fin.ofNat (u / 2 ^ 8), Fin.ofNat (u / 2 ^ 16), Fin.ofNat (u / 2 ^ 24)]

/-- The bytes of a record whose head is `h` and whose remaining fields are `rest`. -/
def PsinfoHead.bytes (h : PsinfoHead) (rest : List Byte) : List Byte :=
  int32Bytes h.pr_flag ++ int32Bytes h.pr_nlwp ++ int32Bytes h.pr_pid ++ int32Bytes h.pr_ppid
    ++ rest

/-! ## Operations without platform logic -/

/-- A Go slice `[]T` whose contents this file never reads: `none` is the nil slice. -/
abbrev Slice (α : Type) := Option (List α)

/-- A Go map: `none` is the nil map. -/
abbrev GoMap (κ α : Type) := Option (List (κ × α))

/-- The Go type `syscall.Signal`, an integer. -/
abbrev Signal := Int

/-- The source's `MemoryMapsStat`. -/
structure MemoryMapsStat where
  Path : String
  Rss : Nat
  Size : Nat
  Pss : Nat
  SharedClean : Nat
  SharedDirty : Nat
  PrivateClean : Nat
  PrivateDirty : Nat
  Referenced : Nat
  Anonymous : Nat
  Swap : Nat
  deriving DecidableEq, Repr

/-- The source's `MemoryInfoExStat`, a struct without fields. -/
structure MemoryInfoExStat where
  deriving DecidableEq, Repr

/-- Result types that this file names and that are declared in other files of the
repository (`process.go`, the packages `cpu` and `net`). The file builds no value of them,
so they are a parameter of the operations that return them. -/
structure Decls where
  RlimitStat : Type
  IOCountersStat : Type
  NumCtxSwitchesStat : Type
  MemoryInfoStat : Type
  OpenFilesStat : Type
  TimesStat : Type
  ConnectionStat : Type
  NetIOCountersStat : Type

/-- The source's `PidsWithContext(ctx)`. -/
def PidsWithContext (_ctx : Context) : Slice Int × Err :=
  (some [], some GoError.ErrNotImplementedError)

/-- The source's `Pids()`. -/
def Pids : Slice Int × Err :=
  PidsWithContext Context.Background

/-- The source's `(p *Process) Tgid()`; it has no form with a context. -/
def Process.Tgid (_p : Process) : Int × Err :=
  (0, some GoError.ErrNotImplementedError)

/-- The source's `(p *Process) NameWithContext`. -/
def Process.NameWithContext (_p : Process) (_ctx : Context) : String × Err :=
  ("", some GoError.ErrNotImplementedError)

/-- The source's `(p *Process) Name`. -/
def Process.Name (p : Process) : String × Err :=
  p.NameWithContext Context.Background

/-- The source's `(p *Process) ExeWithContext`. -/
def Process.ExeWithContext (_p : Process) (_ctx : Context) : String × Err :=
  ("", some GoError.ErrNotImplementedError)

/-- The source's `(p *Process) Exe`. -/
def Process.Exe (p : Process) : String × Err :=
  p.ExeWithContext Context.Background

/-- The source's `(p *Process) CmdlineWithContext`. -/
def Process.CmdlineWithContext (_p : Process) (_ctx : Context) : String × Err :=
  ("", some GoError.ErrNotImplementedError)

/-- The source's `(p *Process) Cmdline`. -/
def Process.Cmdline (p : Process) : String × Err :=
  p.CmdlineWithContext Context.Background

/-- The source's `(p *Process) CmdlineSliceWithContext`. -/
def Process.CmdlineSliceWithContext (_p : Process) (_ctx : Context) : Slice String × Err :=
  (some [], some GoError.ErrNotImplementedError)

/-- The source's `(p *Process) CmdlineSlice`. -/
def Process.CmdlineSlice (p : Process) : Slice String × Err :=
  p.CmdlineSliceWithContext Context.Background

/-- The source's `(p *Process) CreateTimeWithContext`. -/
def Process.CreateTimeWithContext (_p : Process) (_ctx : Context) : Int × Err :=
  (0, some GoError.ErrNotImplementedError)

/-- The source's `(p *Process) CreateTime`. -/
def Process.CreateTime (p : Process) : Int × Err :=
  p.CreateTimeWithContext Context.Background

/-- The source's `(p *Process) CwdWithContext`. -/
def Process.CwdWithContext (_p : Process) (_ctx : Context) : String × Err :=
  ("", some GoError.ErrNotImplementedError)

/-- The source's `(p *Process) Cwd`. -/
def Process.Cwd (p : Process) : String × Err :=
  p.CwdWithContext Context.Background

/-- The source's `(p *Process) ParentWithContext`. -/
def Process.ParentWithContext (_p : Process) (_ctx : Context) : Option Process × Err :=
  (none, some GoError.ErrNotImplementedError)

/-- The source's `(p *Process) Parent`. -/
def Process.Parent (p : Process) : Option Process × Err :=
  p.ParentWithContext Context.Background

/-- The source's `(p *Process) StatusWithContext`. -/
def Process.StatusWithContext (_p : Process) (_ctx : Context) : String × Err :=
  ("", some GoError.ErrNotImplementedError)

/-- The source's `(p *Process) Status`. -/
def Process.Status (p : Process) : String × Err :=
  p.StatusWithContext Context.Background

/-- The source's `(p *Process) UidsWithContext`. -/
def Process.UidsWithContext (_p : Process) (_ctx : Context) : Slice Int × Err :=
  (some [], some GoError.ErrNotImplementedError)

/-- The source's `(p *Process) Uids`. -/
def Process.Uids (p : Process) : Slice Int × Err :=
  p.UidsWithContext Context.Background

/-- The source's `(p *Process) GidsWithContext`. -/
def Process.GidsWithContext (_p : Process) (_ctx : Context) : Slice Int × Err :=
  (some [], some GoError.ErrNotImplementedError)

/-- The source's `(p *Process) Gids`. -/
def Process.Gids (p : Process) : Slice Int × Err :=
  p.GidsWithContext Context.Background

/-- The source's `(p *Process) TerminalWithContext`. -/
def Process.TerminalWithContext (_p : Process) (_ctx : Context) : String × Err :=
  ("", some GoError.ErrNotImplementedError)

/-- The source's `(p *Process) Terminal`. -/
def Process.Terminal (p : Process) : String × Err :=
  p.TerminalWithContext Context.Background

/-- The source's `(p *Process) NiceWithContext`. -/
def Process.NiceWithContext (_p : Process) (_ctx : Context) : Int × Err :=
  (0, some GoError.ErrNotImplementedError)

/-- The source's `(p *Process) Nice`. -/
def Process.Nice (p : Process) : Int × Err :=
  p.NiceWithContext Context.Background

/-- The source's `(p *Process) IOniceWithContext`. -/
def Process.IOniceWithContext (_p : Process) (_ctx : Context) : Int × Err :=
  (0, some GoError.ErrNotImplementedError)

/-- The source's `(p *Process) IOnice`. -/
def Process.IOnice (p : Process) : Int × Err :=
  p.IOniceWithContext Context.Background

/-- The source's `(p *Process) RlimitWithContext`. -/
def Process.RlimitWithContext (D : Decls) (_p : Process) (_ctx : Context) :
    Slice D.RlimitStat × Err :=
  (none, some GoError.ErrNotImplementedError)

/-- The source's `(p *Process) Rlimit`. -/
def Process.Rlimit (D : Decls) (p : Process) : Slice D.RlimitStat × Err :=
  p.RlimitWithContext D Context.Background

/-- The source's `(p *Process) RlimitUsageWithContext`. -/
def Process.RlimitUsageWithContext (D : Decls) (_p : Process) (_ctx : Context) (_gatherUsed : Bool) :
    Slice D.RlimitStat × Err :=
  (none, some GoError.ErrNotImplementedError)

/-- The source's `(p *Process) RlimitUsage`. -/
def Process.RlimitUsage (D : Decls) (p : Process) (gatherUsed : Bool) : Slice D.RlimitStat × Err :=
  p.RlimitUsageWithContext D Context.Background gatherUsed

/-- The source's `(p *Process) IOCountersWithContext`. -/
def Process.IOCountersWithContext (D : Decls) (_p : Process) (_ctx : Context) :
    Option D.IOCountersStat × Err :=
  (none, some GoError.ErrNotImplementedError)

/-- The source's `(p *Process) IOCounters`. -/
def Process.IOCounters (D : Decls) (p : Process) : Option D.IOCountersStat × Err :=
  p.IOCountersWithContext D Context.Background

/-- The source's `(p *Process) NumCtxSwitchesWithContext`. -/
def Process.NumCtxSwitchesWithContext (D : Decls) (_p : Process) (_ctx : Context) :
    Option D.NumCtxSwitchesStat × Err :=
  (none, some GoError.ErrNotImplementedError)

/-- The source's `(p *Process) NumCtxSwitches`. -/
def Process.NumCtxSwitches (D : Decls) (p : Process) : Option D.NumCtxSwitchesStat × Err :=
  p.NumCtxSwitchesWithContext D Context.Background

/-- The source's `(p *Process) NumFDsWithContext`. -/
def Process.NumFDsWithContext (_p : Process) (_ctx : Context) : Int × Err :=
  (0, some GoError.ErrNotImplementedError)

/-- The source's `(p *Process) NumFDs`. -/
def Process.NumFDs (p : Process) : Int × Err :=
  p.NumFDsWithContext Context.Background

/-- The source's `(p *Process) NumThreadsWithContext`. -/
def Process.NumThreadsWithContext (_p : Process) (_ctx : Context) : Int × Err :=
  (0, some GoError.ErrNotImplementedError)

/-- The source's `(p *Process) NumThreads`. -/
def Process.NumThreads (p : Process) : Int × Err :=
  p.NumThreadsWithContext Context.Background

/-- The source's `(p *Process) ThreadsWithContext`. -/
def Process.ThreadsWithContext (D : Decls) (_p : Process) (_ctx : Context) :
    GoMap Int (Option D.TimesStat) × Err :=
  (none, some GoError.ErrNotImplementedError)

/-- The source's `(p *Process) Threads`. -/
def Process.Threads (D : Decls) (p : Process) : GoMap Int (Option D.TimesStat) × Err :=
  p.ThreadsWithContext D Context.Background

/-- The source's `(p *Process) TimesWithContext`. -/
def Process.TimesWithContext (D : Decls) (_p : Process) (_ctx : Context) :
    Option D.TimesStat × Err :=
  (none, some GoError.ErrNotImplementedError)

/-- The source's `(p *Process) Times`. -/
def Process.Times (D : Decls) (p : Process) : Option D.TimesStat × Err :=
  p.TimesWithContext D Context.Background

/-- The source's `(p *Process) CPUAffinityWithContext`. -/
def Process.CPUAffinityWithContext (_p : Process) (_ctx : Context) : Slice Int × Err :=
  (none, some GoError.ErrNotImplementedError)

/-- The source's `(p *Process) CPUAffinity`. -/
def Process.CPUAffinity (p : Process) : Slice Int × Err :=
  p.CPUAffinityWithContext Context.Background

/-- The source's `(p *Process) MemoryInfoWithContext`. -/
def Process.MemoryInfoWithContext (D : Decls) (_p : Process) (_ctx : Context) :
    Option D.MemoryInfoStat × Err :=
  (none, some GoError.ErrNotImplementedError)

/-- The source's `(p *Process) MemoryInfo`. -/
def Process.MemoryInfo (D : Decls) (p : Process) : Option D.MemoryInfoStat × Err :=
  p.MemoryInfoWithContext D Context.Background

/-- The source's `(p *Process) MemoryInfoExWithContext`. -/
def Process.MemoryInfoExWithContext (_p : Process) (_ctx : Context) :
    Option MemoryInfoExStat × Err :=
  (none, some GoError.ErrNotImplementedError)

/-- The source's `(p *Process) MemoryInfoEx`. -/
def Process.MemoryInfoEx (p : Process) : Option MemoryInfoExStat × Err :=
  p.MemoryInfoExWithContext Context.Background

/-- The source's `(p *Process) ChildrenWithContext`. -/
def Process.ChildrenWithContext (_p : Process) (_ctx : Context) : Slice (Option Process) × Err :=
  (none, some GoError.ErrNotImplementedError)

/-- The source's `(p *Process) Children`. -/
def Process.Children (p : Process) : Slice (Option Process) × Err :=
  p.ChildrenWithContext Context.Background

/-- The source's `(p *Process) OpenFilesWithContext`. -/
def Process.OpenFilesWithContext (D : Decls) (_p : Process) (_ctx : Context) :
    Slice D.OpenFilesStat × Err :=
  (some [], some GoError.ErrNotImplementedError)

/-- The source's `(p *Process) OpenFiles`. -/
def Process.OpenFiles (D : Decls) (p : Process) : Slice D.OpenFilesStat × Err :=
  p.OpenFilesWithContext D Context.Background

/-- The source's `(p *Process) ConnectionsWithContext`. -/
def Process.ConnectionsWithContext (D : Decls) (_p : Process) (_ctx : Context) :
    Slice D.ConnectionStat × Err :=
  (some [], some GoError.ErrNotImplementedError)

/-- The source's `(p *Process) Connections`. -/
def Process.Connections (D : Decls) (p : Process) : Slice D.ConnectionStat × Err :=
  p.ConnectionsWithContext D Context.Background

/-- The source's `(p *Process) NetIOCountersWithContext`. -/
def Process.NetIOCountersWithContext (D : Decls) (_p : Process) (_ctx : Context) (_pernic : Bool) :
    Slice D.NetIOCountersStat × Err :=
  (some [], some GoError.ErrNotImplementedError)

/-- The source's `(p *Process) NetIOCounters`. -/
def Process.NetIOCounters (D : Decls) (p : Process) (pernic : Bool) : Slice D.NetIOCountersStat × Err :=
  p.NetIOCountersWithContext D Context.Background pernic

/-- The source's `(p *Process) IsRunningWithContext`. -/
def Process.IsRunningWithContext (_p : Process) (_ctx : Context) : Bool × Err :=
  (true, some GoError.ErrNotImplementedError)

/-- The source's `(p *Process) IsRunning`. -/
def Process.IsRunning (p : Process) : Bool × Err :=
  p.IsRunningWithContext Context.Background

/-- The source's `(p *Process) MemoryMapsWithContext`. -/
def Process.MemoryMapsWithContext (_p : Process) (_ctx : Context) (_grouped : Bool) :
    Option (Slice MemoryMapsStat) × Err :=
  (none, some GoError.ErrNotImplementedError)

/-- The source's `(p *Process) MemoryMaps`. -/
def Process.MemoryMaps (p : Process) (grouped : Bool) : Option (Slice MemoryMapsStat) × Err :=
  p.MemoryMapsWithContext Context.Background grouped

/-- The source's `(p *Process) SendSignalWithContext`. -/
def Process.SendSignalWithContext (_p : Process) (_ctx : Context) (_sig : Signal) : Err :=
  some GoError.ErrNotImplementedError

/-- The source's `(p *Process) SendSignal`. -/
def Process.SendSignal (p : Process) (sig : Signal) : Err :=
  p.SendSignalWithContext Context.Background sig

/-- The source's `(p *Process) SuspendWithContext`. -/
def Process.SuspendWithContext (_p : Process) (_ctx : Context) : Err :=
  some GoError.ErrNotImplementedError

/-- The source's `(p *Process) Suspend`. -/
def Process.Suspend (p : Process) : Err :=
  p.SuspendWithContext Context.Background

/-- The source's `(p *Process) ResumeWithContext`. -/
def Process.ResumeWithContext (_p : Process) (_ctx : Context) : Err :=
  some GoError.ErrNotImplementedError

/-- The source's `(p *Process) Resume`. -/
def Process.Resume (p : Process) : Err :=
  p.ResumeWithContext Context.Background

/-- The source's `(p *Process) TerminateWithContext`. -/
def Process.TerminateWithContext (_p : Process) (_ctx : Context) : Err :=
  some GoError.ErrNotImplementedError

/-- The source's `(p *Process) Terminate`. -/
def Process.Terminate (p : Process) : Err :=
  p.TerminateWithContext Context.Background

/-- The source's `(p *Process) KillWithContext`. -/
def Process.KillWithContext (_p : Process) (_ctx : Context) : Err :=
  some GoError.ErrNotImplementedError

/-- The source's `(p *Process) Kill`. -/
def Process.Kill (p : Process) : Err :=
  p.KillWithContext Context.Background

/-- The source's `(p *Process) UsernameWithContext`. -/
def Process.UsernameWithContext (_p : Process) (_ctx : Context) : String × Err :=
  ("", some GoError.ErrNotImplementedError)

/-- The source's `(p *Process) Username`. -/
def Process.Username (p : Process) : String × Err :=
  p.UsernameWithContext Context.Background

/-! ## Sample inputs -/

/-- A reader that knows one file: the read of `path` gives `contents`, the read of any
other path fails as the read of a missing file does. -/
def singleFile (path : String) (contents : ByteSlice) : FileReader :=
  fun q => if q = path then (contents, none) else (⟨[], []⟩, some (GoError.PathError "open" q 2))

/-- A reader for which no file exists. -/
def noFile : FileReader :=
  fun q => (⟨[], []⟩, some (GoError.PathError "open" q 2))

/-- A record of process 5 laid out as documented: one lwp, parent 1. -/
def samplePsinfo : ByteSlice :=
  { elems := PsinfoHead.bytes { pr_flag := 0, pr_nlwp := 1, pr_pid := 5, pr_ppid := 1 } [0, 0, 0, 0],
    spare := [] }

/-- A handle used to instantiate the statements about operations. -/
def sampleProcess : Process := { Pid := 5, parent := 1 }

/-! ## Theorems: the decoder -/

theorem toInt32_of_lt (u : Nat) (h : u < 2 ^ 32) :
    toInt32 u = if (u : Int) < 2 ^ 31 then (u : Int) else (u : Int) - 2 ^ 32 := by
  unfold toInt32
  rw [Nat.mod_eq_of_lt h]
  by_cases hu : u < 2 ^ 31
  · have : (u : Int) < 2 ^ 31 := by exact_mod_cast hu
    simp [hu, this]
  · have : ¬ (u : Int) < 2 ^ 31 := by
      intro hlt
      exact hu (by exact_mod_cast hlt)
    simp [hu, this]

theorem le_word_lt (b0 b1 b2 b3 : Byte) :
    b0.val + b1.val * 2 ^ 8 + b2.val * 2 ^ 16 + b3.val * 2 ^ 24 < 2 ^ 32 := by
  have h0 := b0.isLt
  have h1 := b1.isLt
  have h2 := b2.isLt
  have h3 := b3.isLt
  omega

theorem readInt32_cons4 (b0 b1 b2 b3 : Byte) (rest spare : List Byte) :
    readInt32 ⟨b0 :: b1 :: b2 :: b3 :: rest, spare⟩ =
      .ret (toInt32 (b0.val + b1.val * 2 ^ 8 + b2.val * 2 ^ 16 + b3.val * 2 ^ 24)) := by
  simp [readInt32, ByteSlice.mem]

theorem exists_cons4 {α : Type} (l : List α) (h : 4 ≤ l.length) :
    ∃ a b c d rest, l = a :: b :: c :: d :: rest := by
  match l, h with
  | a :: b :: c :: d :: rest, _ => exact ⟨a, b, c, d, rest, rfl⟩

/-- C4: on a buffer of at least four bytes `readInt32` returns the signed 32-bit value whose
little-endian bytes are the first four bytes of the buffer, that is the unsigned value
`b[0] + 2^8*b[1] + 2^16*b[2] + 2^24*b[3]` when it is below `2^31` and that value minus `2^32`
otherwise; a buffer with the same first four bytes decodes to the same value whatever
follows them; and `[0x07,0x00,0x00,0x00]` decodes to 7. -/
theorem readInt32_little_endian (b : ByteSlice) (h : 4 ≤ b.len) :
    (readInt32 b = .ret
      (if ((b.elems.getD 0 0).val + 2 ^ 8 * (b.elems.getD 1 0).val
            + 2 ^ 16 * (b.elems.getD 2 0).val + 2 ^ 24 * (b.elems.getD 3 0).val : Int) < 2 ^ 31
       then ((b.elems.getD 0 0).val + 2 ^ 8 * (b.elems.getD 1 0).val
            + 2 ^ 16 * (b.elems.getD 2 0).val + 2 ^ 24 * (b.elems.getD 3 0).val : Int)
       else ((b.elems.getD 0 0).val + 2 ^ 8 * (b.elems.getD 1 0).val
            + 2 ^ 16 * (b.elems.getD 2 0).val + 2 ^ 24 * (b.elems.getD 3 0).val : Int) - 2 ^ 32)) ∧
    (∀ b2 : ByteSlice, b2.elems.take 4 = b.elems.take 4 → readInt32 b2 = readInt32 b) ∧
    readInt32 ⟨[0x07, 0x00, 0x00, 0x00], []⟩ = .ret 7 := by
  obtain ⟨elems, spare⟩ := b
  obtain ⟨b0, b1, b2, b3, rest, rfl⟩ := exists_cons4 elems h
  refine ⟨?_, ?_, by decide⟩
  · rw [readInt32_cons4, toInt32_of_lt _ (le_word_lt b0 b1 b2 b3)]
    simp only [List.getD_cons_zero, List.getD_cons_succ]
    have key : ((b0.val + b1.val * 2 ^ 8 + b2.val * 2 ^ 16 + b3.val * 2 ^ 24 : Nat) : Int)
        = (b0.val : Int) + 2 ^ 8 * (b1.val : Int) + 2 ^ 16 * (b2.val : Int)
          + 2 ^ 24 * (b3.val : Int) := by
      push_cast
      ring
    rw [key]
  · intro c hc
    obtain ⟨celems, cspare⟩ := c
    match celems, hc with
    | c0 :: c1 :: c2 :: c3 :: crest, hc =>
      simp only [List.take_succ_cons, List.take_zero, List.cons.injEq, and_true] at hc
      obtain ⟨rfl, rfl, rfl, rfl⟩ := hc
      rw [readInt32_cons4, readInt32_cons4]
    | [], hc => simp at hc
    | [_], hc => simp at hc
    | [_, _], hc => simp at hc
    | [_, _, _], hc => simp at hc

/-- The decoder on the bytes of -2 followed by one more byte. -/
theorem readInt32_little_endian_witness :
    4 ≤ (ByteSlice.mk [0xfe, 0xff, 0xff, 0xff, 0x09] []).len ∧
    readInt32 ⟨[0xfe, 0xff, 0xff, 0xff, 0x09], []⟩ = .ret (-2) := by
  refine ⟨by decide, ?_⟩
  have h := (readInt32_little_endian ⟨[0xfe, 0xff, 0xff, 0xff, 0x09], []⟩ (by decide)).1
  rw [h]
  decide

/-! ## Theorems: operations without platform logic -/

/-- C5: every operation without platform logic, in its plain form and in its form with a
context, returns the shared sentinel `common.ErrNotImplementedError` as its error, for every
handle, every context and every argument; the error is never nil. -/
theorem stubs_return_ErrNotImplementedError (D : Decls) (p : Process) (ctx : Context)
    (gatherUsed pernic grouped : Bool) (sig : Signal) :
    Pids.2 = some GoError.ErrNotImplementedError ∧
    (PidsWithContext ctx).2 = some GoError.ErrNotImplementedError ∧
    (Process.PpidWithContext p ctx).2 = some GoError.ErrNotImplementedError ∧
    (Process.Tgid p).2 = some GoError.ErrNotImplementedError ∧
    (Process.Name p).2 = some GoError.ErrNotImplementedError ∧
    (Process.NameWithContext p ctx).2 = some GoError.ErrNotImplementedError ∧
    (Process.Exe p).2 = some GoError.ErrNotImplementedError ∧
    (Process.ExeWithContext p ctx).2 = some GoError.ErrNotImplementedError ∧
    (Process.Cmdline p).2 = some GoError.ErrNotImplementedError ∧
    (Process.CmdlineWithContext p ctx).2 = some GoError.ErrNotImplementedError ∧
    (Process.CmdlineSlice p).2 = some GoError.ErrNotImplementedError ∧
    (Process.CmdlineSliceWithContext p ctx).2 = some GoError.ErrNotImplementedError ∧
    (Process.CreateTime p).2 = some GoError.ErrNotImplementedError ∧
    (Process.CreateTimeWithContext p ctx).2 = some GoError.ErrNotImplementedError ∧
    (Process.Cwd p).2 = some GoError.ErrNotImplementedError ∧
    (Process.CwdWithContext p ctx).2 = some GoError.ErrNotImplementedError ∧
    (Process.Parent p).2 = some GoError.ErrNotImplementedError ∧
    (Process.ParentWithContext p ctx).2 = some GoError.ErrNotImplementedError ∧
    (Process.Status p).2 = some GoError.ErrNotImplementedError ∧
    (Process.StatusWithContext p ctx).2 = some GoError.ErrNotImplementedError ∧
    (Process.Uids p).2 = some GoError.ErrNotImplementedError ∧
    (Process.UidsWithContext p ctx).2 = some GoError.ErrNotImplementedError ∧
    (Process.Gids p).2 = some GoError.ErrNotImplementedError ∧
    (Process.GidsWithContext p ctx).2 = some GoError.ErrNotImplementedError ∧
    (Process.Terminal p).2 = some GoError.ErrNotImplementedError ∧
    (Process.TerminalWithContext p ctx).2 = some GoError.ErrNotImplementedError ∧
    (Process.Nice p).2 = some GoError.ErrNotImplementedError ∧
    (Process.NiceWithContext p ctx).2 = some GoError.ErrNotImplementedError ∧
    (Process.IOnice p).2 = some GoError.ErrNotImplementedError ∧
    (Process.IOniceWithContext p ctx).2 = some GoError.ErrNotImplementedError ∧
    (Process.Rlimit D p).2 = some GoError.ErrNotImplementedError ∧
    (Process.RlimitWithContext D p ctx).2 = some GoError.ErrNotImplementedError ∧
    (Process.RlimitUsage D p gatherUsed).2 = some GoError.ErrNotImplementedError ∧
    (Process.RlimitUsageWithContext D p ctx gatherUsed).2 = some GoError.ErrNotImplementedError ∧
    (Process.IOCounters D p).2 = some GoError.ErrNotImplementedError ∧
    (Process.IOCountersWithContext D p ctx).2 = some GoError.ErrNotImplementedError ∧
    (Process.NumCtxSwitches D p).2 = some GoError.ErrNotImplementedError ∧
    (Process.NumCtxSwitchesWithContext D p ctx).2 = some GoError.ErrNotImplementedError ∧
    (Process.NumFDs p).2 = some GoError.ErrNotImplementedError ∧
    (Process.NumFDsWithContext p ctx).2 = some GoError.ErrNotImplementedError ∧
    (Process.NumThreads p).2 = some GoError.ErrNotImplementedError ∧
    (Process.NumThreadsWithContext p ctx).2 = some GoError.ErrNotImplementedError ∧
    (Process.Threads D p).2 = some GoError.ErrNotImplementedError ∧
    (Process.ThreadsWithContext D p ctx).2 = some GoError.ErrNotImplementedError ∧
    (Process.Times D p).2 = some GoError.ErrNotImplementedError ∧
    (Process.TimesWithContext D p ctx).2 = some GoError.ErrNotImplementedError ∧
    (Process.CPUAffinity p).2 = some GoError.ErrNotImplementedError ∧
    (Process.CPUAffinityWithContext p ctx).2 = some GoError.ErrNotImplementedError ∧
    (Process.MemoryInfo D p).2 = some GoError.ErrNotImplementedError ∧
    (Process.MemoryInfoWithContext D p ctx).2 = some GoError.ErrNotImplementedError ∧
    (Process.MemoryInfoEx p).2 = some GoError.ErrNotImplementedError ∧
    (Process.MemoryInfoExWithContext p ctx).2 = some GoError.ErrNotImplementedError ∧
    (Process.Children p).2 = some GoError.ErrNotImplementedError ∧
    (Process.ChildrenWithContext p ctx).2 = some GoError.ErrNotImplementedError ∧
    (Process.OpenFiles D p).2 = some GoError.ErrNotImplementedError ∧
    (Process.OpenFilesWithContext D p ctx).2 = some GoError.ErrNotImplementedError ∧
    (Process.Connections D p).2 = some GoError.ErrNotImplementedError ∧
    (Process.ConnectionsWithContext D p ctx).2 = some GoError.ErrNotImplementedError ∧
    (Process.NetIOCounters D p pernic).2 = some GoError.ErrNotImplementedError ∧
    (Process.NetIOCountersWithContext D p ctx pernic).2 = some GoError.ErrNotImplementedError ∧
    (Process.IsRunning p).2 = some GoError.ErrNotImplementedError ∧
    (Process.IsRunningWithContext p ctx).2 = some GoError.ErrNotImplementedError ∧
    (Process.MemoryMaps p grouped).2 = some GoError.ErrNotImplementedError ∧
    (Process.MemoryMapsWithContext p ctx grouped).2 = some GoError.ErrNotImplementedError ∧
    Process.SendSignal p sig = some GoError.ErrNotImplementedError ∧
    Process.SendSignalWithContext p ctx sig = some GoError.ErrNotImplementedError ∧
    Process.Suspend p = some GoError.ErrNotImplementedError ∧
    Process.SuspendWithContext p ctx = some GoError.ErrNotImplementedError ∧
    Process.Resume p = some GoError.ErrNotImplementedError ∧
    Process.ResumeWithContext p ctx = some GoError.ErrNotImplementedError ∧
    Process.Terminate p = some GoError.ErrNotImplementedError ∧
    Process.TerminateWithContext p ctx = some GoError.ErrNotImplementedError ∧
    Process.Kill p = some GoError.ErrNotImplementedError ∧
    Process.KillWithContext p ctx = some GoError.ErrNotImplementedError ∧
    (Process.Username p).2 = some GoError.ErrNotImplementedError ∧
    (Process.UsernameWithContext p ctx).2 = some GoError.ErrNotImplementedError := by
  and_intros <;> rfl

/-- C6: `IsRunning` and `IsRunningWithContext` return the boolean `true` together with
`common.ErrNotImplementedError`, for every handle and every context. -/
theorem IsRunning_assumes_running (p : Process) (ctx : Context) :
    Process.IsRunning p = (true, some GoError.ErrNotImplementedError) ∧
    Process.IsRunningWithContext p ctx = (true, some GoError.ErrNotImplementedError) ∧
    (Process.IsRunning p).1 ≠ false ∧ (Process.IsRunningWithContext p ctx).1 ≠ false := by
  refine ⟨rfl, rfl, ?_, ?_⟩ <;> simp [Process.IsRunning, Process.IsRunningWithContext]

/-- C9: `Ppid` returns the stored parent with a nil error while `PpidWithContext` returns 0
with `common.ErrNotImplementedError`, so the two never return the same outcome; every other
operation that has a form with a context returns in its plain form exactly what that form
returns on the background context. -/
theorem Ppid_does_not_delegate (D : Decls) (p : Process) (ctx : Context)
    (gatherUsed pernic grouped : Bool) (sig : Signal) :
    Process.Ppid p = (p.parent, none) ∧
    Process.PpidWithContext p ctx = (0, some GoError.ErrNotImplementedError) ∧
    Process.Ppid p ≠ Process.PpidWithContext p ctx ∧
    Pids = PidsWithContext Context.Background ∧
    Process.Name p = Process.NameWithContext p Context.Background ∧
    Process.Exe p = Process.ExeWithContext p Context.Background ∧
    Process.Cmdline p = Process.CmdlineWithContext p Context.Background ∧
    Process.CmdlineSlice p = Process.CmdlineSliceWithContext p Context.Background ∧
    Process.CreateTime p = Process.CreateTimeWithContext p Context.Background ∧
    Process.Cwd p = Process.CwdWithContext p Context.Background ∧
    Process.Parent p = Process.ParentWithContext p Context.Background ∧
    Process.Status p = Process.StatusWithContext p Context.Background ∧
    Process.Uids p = Process.UidsWithContext p Context.Background ∧
    Process.Gids p = Process.GidsWithContext p Context.Background ∧
    Process.Terminal p = Process.TerminalWithContext p Context.Background ∧
    Process.Nice p = Process.NiceWithContext p Context.Background ∧
    Process.IOnice p = Process.IOniceWithContext p Context.Background ∧
    Process.Rlimit D p = Process.RlimitWithContext D p Context.Background ∧
    Process.RlimitUsage D p gatherUsed = Process.RlimitUsageWithContext D p Context.Background gatherUsed ∧
    Process.IOCounters D p = Process.IOCountersWithContext D p Context.Background ∧
    Process.NumCtxSwitches D p = Process.NumCtxSwitchesWithContext D p Context.Background ∧
    Process.NumFDs p = Process.NumFDsWithContext p Context.Background ∧
    Process.NumThreads p = Process.NumThreadsWithContext p Context.Background ∧
    Process.Threads D p = Process.ThreadsWithContext D p Context.Background ∧
    Process.Times D p = Process.TimesWithContext D p Context.Background ∧
    Process.CPUAffinity p = Process.CPUAffinityWithContext p Context.Background ∧
    Process.MemoryInfo D p = Process.MemoryInfoWithContext D p Context.Background ∧
    Process.MemoryInfoEx p = Process.MemoryInfoExWithContext p Context.Background ∧
    Process.Children p = Process.ChildrenWithContext p Context.Background ∧
    Process.OpenFiles D p = Process.OpenFilesWithContext D p Context.Background ∧
    Process.Connections D p = Process.ConnectionsWithContext D p Context.Background ∧
    Process.NetIOCounters D p pernic = Process.NetIOCountersWithContext D p Context.Background pernic ∧
    Process.IsRunning p = Process.IsRunningWithContext p Context.Background ∧
    Process.MemoryMaps p grouped = Process.MemoryMapsWithContext p Context.Background grouped ∧
    Process.SendSignal p sig = Process.SendSignalWithContext p Context.Background sig ∧
    Process.Suspend p = Process.SuspendWithContext p Context.Background ∧
    Process.Resume p = Process.ResumeWithContext p Context.Background ∧
    Process.Terminate p = Process.TerminateWithContext p Context.Background ∧
    Process.Kill p = Process.KillWithContext p Context.Background ∧
    Process.Username p = Process.UsernameWithContext p Context.Background := by
  refine ⟨rfl, rfl, ?_, ?_⟩
  · simp [Process.Ppid, Process.PpidWithContext]
  · and_intros <;> rfl

/-! ## Theorems: reading the record -/

theorem exists_eq4 {α : Type} (l : List α) (h : l.length = 4) :
    ∃ a b c d, l = [a, b, c, d] := by
  match l, h with
  | [a, b, c, d], _ => exact ⟨a, b, c, d, rfl⟩

theorem field_length (elems : List Byte) (h : 12 ≤ elems.length) :
    ((elems.drop 8).take 4).length = 4 := by
  simp only [List.length_take, List.length_drop]
  omega

theorem sliceExpr_8_12 (c : ByteSlice) (h : 12 ≤ c.len) :
    sliceExpr c 8 12 = .ret ⟨(c.elems.drop 8).take 4, c.mem.drop 12⟩ := by
  have hlen : 12 ≤ c.elems.length := h
  have hcap : 12 ≤ c.cap := by
    unfold ByteSlice.cap
    omega
  have hdrop : (c.elems ++ c.spare).drop 8 = c.elems.drop 8 ++ c.spare :=
    List.drop_append_of_le_length (by omega)
  have htake : (c.elems.drop 8 ++ c.spare).take 4 = (c.elems.drop 8).take 4 :=
    List.take_append_of_le_length (by simp only [List.length_drop]; omega)
  simp [sliceExpr, hcap, ByteSlice.mem, hdrop, htake]

theorem readInt32_field (f spare : List Byte) (h : f.length = 4) :
    ∃ v, readInt32 ⟨f, spare⟩ = .ret v ∧ readInt32 ⟨f, []⟩ = .ret v := by
  obtain ⟨a, b, c, d, rfl⟩ := exists_eq4 f h
  exact ⟨_, readInt32_cons4 a b c d [] spare, readInt32_cons4 a b c d [] []⟩

theorem readPsinfo_read_error (ReadFile : FileReader) (p : Process) (ctx : Context)
    (e : GoError) (h : (ReadFile (statPath p.Pid)).2 = some e) :
    Process.readPsinfo ReadFile p ctx = .ret (p, some e) := by
  unfold Process.readPsinfo
  rcases hr : ReadFile (statPath p.Pid) with ⟨c, err⟩
  rw [hr] at h
  simp only at h
  subst h
  simp only [hr]

theorem readPsinfo_read_ok (ReadFile : FileReader) (p : Process) (ctx : Context)
    (contents : ByteSlice) (hread : ReadFile (statPath p.Pid) = (contents, none))
    (hlen : 12 ≤ contents.len) :
    ∃ v, readInt32 ⟨(contents.elems.drop 8).take 4, []⟩ = .ret v ∧
      Process.readPsinfo ReadFile p ctx = .ret ({ p with parent := v }, none) := by
  obtain ⟨v, hv, hv0⟩ :=
    readInt32_field ((contents.elems.drop 8).take 4) (contents.mem.drop 12)
      (field_length contents.elems hlen)
  refine ⟨v, hv0, ?_⟩
  unfold Process.readPsinfo
  simp only [hread]
  show Outcome.bind (sliceExpr contents 8 12) _ = _
  rw [sliceExpr_8_12 contents hlen]
  show Outcome.bind (readInt32 _) _ = _
  rw [hv]
  rfl

theorem NewProcess_read_ok (ReadFile : FileReader) (pid : Int) (contents : ByteSlice)
    (hread : ReadFile (statPath pid) = (contents, none)) (hlen : 12 ≤ contents.len) :
    ∃ v, readInt32 ⟨(contents.elems.drop 8).take 4, []⟩ = .ret v ∧
      NewProcess ReadFile pid = .ret (some { Pid := pid, parent := v }, none) := by
  obtain ⟨v, hv, hp⟩ :=
    readPsinfo_read_ok ReadFile { Pid := pid, parent := 0 } Context.Background contents hread hlen
  refine ⟨v, hv, ?_⟩
  unfold NewProcess
  simp only [hp]

theorem NewProcess_read_error (ReadFile : FileReader) (pid : Int) (e : GoError)
    (h : (ReadFile (statPath pid)).2 = some e) :
    NewProcess ReadFile pid = .ret (some { Pid := pid, parent := 0 }, some e) := by
  unfold NewProcess
  simp only [readPsinfo_read_error ReadFile { Pid := pid, parent := 0 } Context.Background e h]

/-- C7: when the read of the record of `pid` succeeds with at least 12 bytes, `NewProcess`
returns a nil error and a handle whose `Pid` is `pid` and whose stored parent is `readInt32`
of bytes 8..11 of the record; `Ppid` on that handle returns that stored parent with a nil
error; and any other successful read whose record has the same bytes 8..11 gives the same
result. -/
theorem NewProcess_stores_bytes_8_to_11 (ReadFile : FileReader) (pid : Int)
    (contents : ByteSlice) (hread : ReadFile (statPath pid) = (contents, none))
    (hlen : 12 ≤ contents.len) :
    ∃ v, readInt32 ⟨(contents.elems.drop 8).take 4, []⟩ = .ret v ∧
      NewProcess ReadFile pid = .ret (some { Pid := pid, parent := v }, none) ∧
      Process.Ppid { Pid := pid, parent := v } = (v, none) ∧
      ∀ (ReadFile2 : FileReader) (contents2 : ByteSlice),
        ReadFile2 (statPath pid) = (contents2, none) → 12 ≤ contents2.len →
        (contents2.elems.drop 8).take 4 = (contents.elems.drop 8).take 4 →
        NewProcess ReadFile2 pid = NewProcess ReadFile pid := by
  obtain ⟨v, hv, hnew⟩ := NewProcess_read_ok ReadFile pid contents hread hlen
  refine ⟨v, hv, hnew, rfl, ?_⟩
  intro ReadFile2 contents2 hread2 hlen2 hsame
  obtain ⟨w, hw, hnew2⟩ := NewProcess_read_ok ReadFile2 pid contents2 hread2 hlen2
  rw [hsame, hv] at hw
  cases hw
  rw [hnew, hnew2]

/-- Construction for process 5 on the sample record. -/
theorem NewProcess_stores_bytes_8_to_11_witness :
    singleFile "/proc/5/psinfo" samplePsinfo (statPath 5) = (samplePsinfo, none) ∧
    12 ≤ samplePsinfo.len ∧
    ∃ v, readInt32 ⟨(samplePsinfo.elems.drop 8).take 4, []⟩ = .ret v ∧
      NewProcess (singleFile "/proc/5/psinfo" samplePsinfo) 5
        = .ret (some { Pid := 5, parent := v }, none) ∧
      Process.Ppid { Pid := 5, parent := v } = (v, none) ∧
      ∀ (ReadFile2 : FileReader) (contents2 : ByteSlice),
        ReadFile2 (statPath 5) = (contents2, none) → 12 ≤ contents2.len →
        (contents2.elems.drop 8).take 4 = (samplePsinfo.elems.drop 8).take 4 →
        NewProcess ReadFile2 5 = NewProcess (singleFile "/proc/5/psinfo" samplePsinfo) 5 :=
  ⟨by decide, by decide,
    NewProcess_stores_bytes_8_to_11 (singleFile "/proc/5/psinfo" samplePsinfo) 5 samplePsinfo
      (by decide) (by decide)⟩

/-- C8: a buffer of at least 4 bytes makes the index `b[0]` of `readInt32` in bounds, so
`readInt32` returns a value; for a successfully read record of at least 12 bytes the slice
`contents[8:12]` is in bounds and has exactly 4 bytes, and `readPsinfo` returns normally
with a nil error. -/
theorem length_precondition_is_safe (b : ByteSlice) (hb : 4 ≤ b.len)
    (ReadFile : FileReader) (p : Process) (ctx : Context) (contents : ByteSlice)
    (hread : ReadFile (statPath p.Pid) = (contents, none)) (hlen : 12 ≤ contents.len) :
    (readInt32 b ≠ .panic ∧ readInt32 b ≠ .fault ∧ ∃ v, readInt32 b = .ret v) ∧
    (sliceExpr contents 8 12 ≠ .panic ∧
      ∃ s, sliceExpr contents 8 12 = .ret s ∧ s.len = 4 ∧
        s.elems = (contents.elems.drop 8).take 4) ∧
    (Process.readPsinfo ReadFile p ctx ≠ .panic ∧
      ∃ q, Process.readPsinfo ReadFile p ctx = .ret (q, none)) := by
  refine ⟨?_, ?_, ?_⟩
  · obtain ⟨elems, spare⟩ := b
    obtain ⟨b0, b1, b2, b3, rest, rfl⟩ := exists_cons4 elems hb
    rw [readInt32_cons4]
    exact ⟨by simp, by simp, _, rfl⟩
  · rw [sliceExpr_8_12 contents hlen]
    exact ⟨by simp, _, rfl, field_length contents.elems hlen, rfl⟩
  · obtain ⟨v, _, hp⟩ := readPsinfo_read_ok ReadFile p ctx contents hread hlen
    rw [hp]
    exact ⟨by simp, _, rfl⟩

/-- The bounds on a 4-byte buffer and on the sample record. -/
theorem length_precondition_is_safe_witness :
    4 ≤ (ByteSlice.mk [1, 2, 3, 4] []).len ∧
    singleFile "/proc/5/psinfo" samplePsinfo (statPath sampleProcess.Pid)
      = (samplePsinfo, none) ∧
    12 ≤ samplePsinfo.len ∧
    readInt32 ⟨[1, 2, 3, 4], []⟩ ≠ .panic ∧
    sliceExpr samplePsinfo 8 12 ≠ .panic ∧
    Process.readPsinfo (singleFile "/proc/5/psinfo" samplePsinfo) sampleProcess
      Context.Background ≠ .panic := by
  have h := length_precondition_is_safe ⟨[1, 2, 3, 4], []⟩ (by decide)
    (singleFile "/proc/5/psinfo" samplePsinfo) sampleProcess Context.Background samplePsinfo
    (by decide) (by decide)
  exact ⟨by decide, by decide, by decide, h.1.1, h.2.1.1, h.2.2.1⟩

theorem readPsinfo_error_of_ret (ReadFile : FileReader) (p q : Process) (ctx : Context)
    (e : GoError) (h : Process.readPsinfo ReadFile p ctx = .ret (q, some e)) :
    (ReadFile (statPath p.Pid)).2 = some e := by
  rcases hr : ReadFile (statPath p.Pid) with ⟨c, err⟩
  cases err with
  | some e2 =>
    have h2 := readPsinfo_read_error ReadFile p ctx e2 (by rw [hr])
    rw [h2] at h
    cases h
    rfl
  | none =>
    exfalso
    unfold Process.readPsinfo at h
    simp only [hr] at h
    change Outcome.bind (sliceExpr c 8 12) _ = _ at h
    cases hs : sliceExpr c 8 12 with
    | panic => rw [hs] at h; cases h
    | fault => rw [hs] at h; cases h
    | ret f =>
      rw [hs] at h
      change Outcome.bind (readInt32 f) _ = _ at h
      cases hv : readInt32 f with
      | panic => rw [hv] at h; cases h
      | fault => rw [hv] at h; cases h
      | ret v => rw [hv] at h; cases h

/-- C3: `NewProcess` and `readPsinfo` return the non-nil error `e` exactly when the read of
`/proc/<pid>/psinfo` fails with `e`: a failed read always makes them return, with the error
of the read unchanged, and no other error is ever returned. -/
theorem error_iff_read_fails (ReadFile : FileReader) (pid : Int) (e : GoError) :
    ((∃ h, NewProcess ReadFile pid = .ret (h, some e)) ↔
      (ReadFile (statPath pid)).2 = some e) ∧
    (∀ (parent : Int) (ctx : Context),
      (∃ q, Process.readPsinfo ReadFile { Pid := pid, parent := parent } ctx
          = .ret (q, some e)) ↔
        (ReadFile (statPath pid)).2 = some e) := by
  constructor
  · constructor
    · rintro ⟨h, hnew⟩
      unfold NewProcess at hnew
      cases hp : Process.readPsinfo ReadFile { Pid := pid, parent := 0 } Context.Background with
      | panic => simp only [hp] at hnew; cases hnew
      | fault => simp only [hp] at hnew; cases hnew
      | ret r =>
        obtain ⟨q, err⟩ := r
        simp only [hp, Outcome.ret.injEq, Prod.mk.injEq] at hnew
        obtain ⟨_, rfl⟩ := hnew
        exact readPsinfo_error_of_ret ReadFile _ q _ e hp
    · intro h
      exact ⟨_, NewProcess_read_error ReadFile pid e h⟩
  · intro parent ctx
    constructor
    · rintro ⟨q, hq⟩
      exact readPsinfo_error_of_ret ReadFile _ q ctx e hq
    · intro h
      exact ⟨_, readPsinfo_read_error ReadFile { Pid := pid, parent := parent } ctx e h⟩

/-! ## Theorems: construction when the read fails -/

/-- C2, as stated, fails: for process 7, whose record cannot be read, `NewProcess` returns the
error of the read together with a handle that is not nil. -/
theorem NewProcess_error_with_handle :
    NewProcess noFile 7
        = .ret (some { Pid := 7, parent := 0 },
            some (GoError.PathError "open" "/proc/7/psinfo" 2)) ∧
    ¬ (∀ h e, NewProcess noFile 7 = .ret (h, some e) → h = none) := by
  have hrun : NewProcess noFile 7
      = .ret (some { Pid := 7, parent := 0 },
          some (GoError.PathError "open" "/proc/7/psinfo" 2)) := by decide
  refine ⟨hrun, ?_⟩
  intro hall
  have := hall _ _ hrun
  cases this

/-- C2, amended: for every process id whose record cannot be read, `NewProcess` returns the
error of the read together with a non-nil handle whose `Pid` is the requested id and whose
stored parent is the zero value, so that `Ppid` on that handle returns 0 with a nil error. -/
theorem NewProcess_returns_handle_and_error (ReadFile : FileReader) (pid : Int) (e : GoError)
    (h : (ReadFile (statPath pid)).2 = some e) :
    NewProcess ReadFile pid = .ret (some { Pid := pid, parent := 0 }, some e) ∧
    Process.Ppid { Pid := pid, parent := 0 } = (0, none) :=
  ⟨NewProcess_read_error ReadFile pid e h, rfl⟩

/-- Construction for process 7 when no file exists. -/
theorem NewProcess_returns_handle_and_error_witness :
    (noFile (statPath 7)).2 = some (GoError.PathError "open" "/proc/7/psinfo" 2) ∧
    NewProcess noFile 7
        = .ret (some { Pid := 7, parent := 0 },
            some (GoError.PathError "open" "/proc/7/psinfo" 2)) ∧
    Process.Ppid { Pid := 7, parent := 0 } = (0, none) :=
  ⟨by decide,
    NewProcess_returns_handle_and_error noFile 7 (GoError.PathError "open" "/proc/7/psinfo" 2)
      (by decide)⟩

/-! ## Theorems: the field that is stored as the parent -/

theorem toInt32_int32Bytes (i : Int) (hlo : -2 ^ 31 ≤ i) (hhi : i < 2 ^ 31) (spare : List Byte) :
    readInt32 ⟨int32Bytes i, spare⟩ = .ret i := by
  unfold int32Bytes
  simp only []
  rw [readInt32_cons4]
  congr 1
  have hu : ((i % 2 ^ 32).toNat : Int) = i % 2 ^ 32 :=
    Int.toNat_of_nonneg (Int.emod_nonneg _ (by norm_num))
  have hlt : (i % 2 ^ 32).toNat < 2 ^ 32 := by
    have := Int.emod_lt_of_pos i (show (0 : Int) < 2 ^ 32 by norm_num)
    omega
  generalize (i % 2 ^ 32).toNat = u at hu hlt
  have hsum : (Fin.ofNat u : Byte).val + (Fin.ofNat (u / 2 ^ 8) : Byte).val * 2 ^ 8
      + (Fin.ofNat (u / 2 ^ 16) : Byte).val * 2 ^ 16
      + (Fin.ofNat (u / 2 ^ 24) : Byte).val * 2 ^ 24 = u := by
    simp only [Fin.ofNat, Nat.reduceAdd]
    omega
  rw [hsum, toInt32_of_lt u hlt]
  split_ifs with hc <;> omega

/-- For every record laid out as the `psinfo_t` comment documents, the handle that
`NewProcess` returns stores the field `pr_pid` of the record as the parent. -/
theorem NewProcess_parent_eq_pr_pid (ReadFile : FileReader) (pid : Int) (h : PsinfoHead)
    (rest spare : List Byte) (hlo : -2 ^ 31 ≤ h.pr_pid) (hhi : h.pr_pid < 2 ^ 31)
    (hread : ReadFile (statPath pid) = (⟨h.bytes rest, spare⟩, none)) :
    NewProcess ReadFile pid = .ret (some { Pid := pid, parent := h.pr_pid }, none) := by
  have hlen : 12 ≤ (ByteSlice.mk (h.bytes rest) spare).len := by
    simp [ByteSlice.len, PsinfoHead.bytes, int32Bytes]
  obtain ⟨v, hv, hnew⟩ := NewProcess_read_ok ReadFile pid _ hread hlen
  have hfield : ((ByteSlice.mk (h.bytes rest) spare).elems.drop 8).take 4
      = int32Bytes h.pr_pid := by
    simp [PsinfoHead.bytes, int32Bytes]
  rw [hfield, toInt32_int32Bytes h.pr_pid hlo hhi] at hv
  cases hv
  exact hnew

/-- C1 fails on the code: process 5 has a record laid out as documented with `pr_pid = 5` and
`pr_ppid = 1` (bytes 12..15 decode to 1), yet the handle that `NewProcess 5` returns
reports `Ppid() = 5`, the field `pr_pid` at bytes 8..11, not the parent 1. -/
theorem Ppid_reports_pr_pid_not_pr_ppid :
    samplePsinfo.elems
      = PsinfoHead.bytes { pr_flag := 0, pr_nlwp := 1, pr_pid := 5, pr_ppid := 1 } [0, 0, 0, 0] ∧
    readInt32 ⟨(samplePsinfo.elems.drop 12).take 4, []⟩ = .ret 1 ∧
    NewProcess (singleFile "/proc/5/psinfo" samplePsinfo) 5
      = .ret (some { Pid := 5, parent := 5 }, none) ∧
    Process.Ppid { Pid := 5, parent := 5 } = (5, none) ∧
    (Process.Ppid { Pid := 5, parent := 5 }).1 ≠ 1 := by
  decide

/-! ## Theorems: the record locator -/

theorem digitChar_toNat (d : Nat) (h : d < 10) : (digitChar d).toNat - 48 = d := by
  interval_cases d <;> rfl

theorem digitChar_isDigit (d : Nat) (h : d < 10) : (digitChar d).isDigit = true := by
  interval_cases d <;> rfl

theorem digitChar_eq_zero (d : Nat) (h : d < 10) (h0 : digitChar d = '0') : d = 0 := by
  have := digitChar_toNat d h
  rw [h0] at this
  exact this.symm

theorem decDigits_isDigit (fuel n : Nat) : ∀ c ∈ decDigits fuel n, c.isDigit = true := by
  induction fuel generalizing n with
  | zero => intro c hc; simp [decDigits] at hc
  | succ fuel ih =>
    intro c hc
    unfold decDigits at hc
    split_ifs at hc with hn
    · rw [List.mem_singleton] at hc
      subst hc
      exact digitChar_isDigit n hn
    · rw [List.mem_append, List.mem_singleton] at hc
      rcases hc with hc | hc
      · exact ih _ c hc
      · subst hc
        exact digitChar_isDigit _ (Nat.mod_lt _ (by norm_num))

theorem decDigits_ne_nil (fuel n : Nat) (h : n < fuel) : decDigits fuel n ≠ [] := by
  cases fuel with
  | zero => omega
  | succ fuel =>
    unfold decDigits
    split_ifs <;> simp

theorem decDigits_value (fuel n : Nat) (h : n < fuel) :
    Nat.ofDigits 10 ((decDigits fuel n).reverse.map (fun c => c.toNat - 48)) = n := by
  induction fuel generalizing n with
  | zero => omega
  | succ fuel ih =>
    unfold decDigits
    split_ifs with hn
    · simp [Nat.ofDigits, digitChar_toNat n hn]
    · have hlt : n / 10 < fuel := by omega
      rw [List.reverse_append, List.reverse_singleton, List.singleton_append, List.map_cons,
        Nat.ofDigits_cons, ih _ hlt, digitChar_toNat _ (Nat.mod_lt _ (by norm_num))]
      omega

theorem decDigits_head (fuel n : Nat) (h : n < fuel)
    (h0 : (decDigits fuel n).head? = some '0') : n = 0 := by
  induction fuel generalizing n with
  | zero => omega
  | succ fuel ih =>
    unfold decDigits at h0
    split_ifs at h0 with hn
    · simp only [List.head?_cons, Option.some.injEq] at h0
      exact digitChar_eq_zero n hn h0
    · have hlt : n / 10 < fuel := by omega
      have hne := decDigits_ne_nil fuel (n / 10) hlt
      rw [List.head?_append_of_ne_nil _ hne] at h0
      have := ih _ hlt h0
      omega

theorem formatNat_injective : Function.Injective formatNat := by
  intro a b hab
  have ha := decDigits_value (a + 1) a (by omega)
  have hb := decDigits_value (b + 1) b (by omega)
  unfold formatNat at hab
  rw [hab, hb] at ha
  exact ha.symm

theorem formatNat_ne_minus (n : Nat) (rest : List Char) : formatNat n ≠ '-' :: rest := by
  intro h
  have := decDigits_isDigit (n + 1) n '-' (by
    unfold formatNat at h
    rw [h]
    exact List.mem_cons_self _ _)
  exact absurd this (by decide)

theorem formatInt_injective : Function.Injective formatInt := by
  intro a b hab
  unfold formatInt at hab
  split_ifs at hab with ha hb hb
  · have := formatNat_injective (List.cons.inj hab).2
    omega
  · exact absurd hab.symm (formatNat_ne_minus _ _)
  · exact absurd hab (formatNat_ne_minus _ _)
  · have := formatNat_injective hab
    omega

/-- C10: the locator that `readPsinfo` builds is `/proc/`, then the decimal rendering of the
pid (a minus sign for a negative pid, then the digits of its absolute value, which are
decimal digits whose value is that number, with no leading zero), then `/psinfo`; and two
different process ids never give the same locator. -/
theorem statPath_decimal_injective :
    (∀ pid : Int,
      statPath pid = "/proc/" ++ String.mk (formatInt pid) ++ "/psinfo" ∧
      formatInt pid = (if pid < 0 then ['-'] else []) ++ formatNat pid.natAbs) ∧
    (∀ n : Nat,
      (∀ c ∈ formatNat n, c.isDigit = true) ∧
      Nat.ofDigits 10 ((formatNat n).reverse.map (fun c => c.toNat - 48)) = n ∧
      ((formatNat n).head? = some '0' → n = 0)) ∧
    Function.Injective statPath := by
  refine ⟨?_, ?_, ?_⟩
  · intro pid
    constructor
    · rfl
    · unfold formatInt
      split_ifs <;> rfl
  · intro n
    exact ⟨decDigits_isDigit (n + 1) n, decDigits_value (n + 1) n (by omega),
      decDigits_head (n + 1) n (by omega)⟩
  · intro a b hab
    unfold statPath at hab
    have h1 : "/proc/".data ++ formatInt a ++ "/psinfo".data
        = "/proc/".data ++ formatInt b ++ "/psinfo".data := congrArg String.data hab
    have h2 := List.append_cancel_right h1
    exact formatInt_injective (List.append_cancel_left h2)

end process
